import Mathlib

/-!
Shallow embedding of the pullomatic repository synchronizer
(src/repo.rs and src/ticker.rs).

Instants are modelled as natural numbers, git object ids as natural
numbers wrapped in `GitObject`, and external effects (filesystem,
libgit2 calls) are supplied as explicit oracle data in a `World`
record.  The credential callback of `Repo::update` is translated
statement by statement, including the `unwrap()` calls on the proposed
username, whose failure is modelled by the `panicked` outcome.
-/

namespace Pullomatic

/-- SSH credential descriptor, from the configuration: optional username,
private key material (inline content or, when `private_key_path` is true,
a file path), optional public key, optional passphrase. -/
structure SshCredentials where
  username : Option String
  private_key : String
  private_key_path : Bool
  public_key : Option String
  passphrase : Option String
deriving DecidableEq, Repr

/-- Password credential descriptor: optional username and a password. -/
structure PasswordCredentials where
  username : Option String
  password : String
deriving DecidableEq, Repr

/-- Tagged credential variant from the configuration (`config::Credentials`). -/
inductive Credentials where
  | SSH : SshCredentials → Credentials
  | Password : PasswordCredentials → Credentials
deriving DecidableEq, Repr

/-- Modelled from the spec: the `config` crate is not under src/.  Per the
spec a repository configuration carries a local path, a remote URL, a remote
reference, an optional polling interval and an optional credential. -/
structure Config where
  path : String
  remote_url : String
  remote_ref : String
  interval : Option Nat
  credentials : Option Credentials

/-- The subset of the `git2::CredentialType` bitmask that the credential
callback inspects: `USERNAME`, `SSH_MEMORY` and `USER_PASS_PLAINTEXT`. -/
structure CredentialType where
  username : Bool
  ssh_memory : Bool
  user_pass_plaintext : Bool
deriving DecidableEq, Repr

/-- Concrete credential artifacts the callback can produce
(`git2::Cred` constructors used by repo.rs). -/
inductive Cred where
  | username : String → Cred
  | ssh_key_from_memory : String → Option String → String → Option String → Cred
  | userpass_plaintext : String → String → Cred
deriving DecidableEq, Repr

/-- A git-layer error carrying its message (`git2::Error`). -/
structure GitError where
  message : String
deriving DecidableEq, Repr

/-- Builds a git error from a fixed message (`git2::Error::from_str`). -/
def GitError.from_str (s : String) : GitError := ⟨s⟩

/-- A local I/O-layer error (`std::io::Error`), identified by a message. -/
structure IoError where
  message : String
deriving DecidableEq, Repr

/-- Result of trying to read a file fully into memory: contents on success,
or a failure either at `File::open` or at `read_to_string`. -/
inductive FsRead where
  | ok : String → FsRead
  | openFailed : FsRead
  | readFailed : FsRead
deriving DecidableEq, Repr

/-- Outcome of one invocation of the credential callback: a credential,
a git error, or a panic (an `unwrap()` on an absent proposed username). -/
inductive CbOutcome where
  | ok : Cred → CbOutcome
  | err : GitError → CbOutcome
  | panicked : CbOutcome
deriving DecidableEq, Repr

/-- Third block of the credential callback (repo.rs lines 133-140): if the
mask permits plaintext user/password and a Password credential is configured,
return `userpass_plaintext(username.unwrap(), password)`; otherwise fall
through to the final `Err("Unsupported authentication")`. -/
def credentials_callback_step3 (creds : Option Credentials)
    (username : Option String) (allowed : CredentialType) : CbOutcome :=
  if allowed.user_pass_plaintext then
    match creds with
    | some (.Password password) =>
        match username with
        | some u => .ok (.userpass_plaintext u password.password)
        | none => .panicked
    | _ => .err (GitError.from_str "Unsupported authentication")
  else
    .err (GitError.from_str "Unsupported authentication")

/-- Second block of the credential callback (repo.rs lines 114-131): if the
mask permits in-memory SSH keys and an SSH credential is configured, obtain
the private key (reading the file when `private_key_path` is set, mapping
open/read failures to fixed git errors), then return
`ssh_key_from_memory(username.unwrap(), public_key, private_key, passphrase)`;
otherwise continue with the third block. -/
def credentials_callback_step2 (creds : Option Credentials) (fs : String → FsRead)
    (username : Option String) (allowed : CredentialType) : CbOutcome :=
  if allowed.ssh_memory then
    match creds with
    | some (.SSH ssh) =>
        let private_key : Except GitError String :=
          if ssh.private_key_path then
            match fs ssh.private_key with
            | .ok contents => .ok contents
            | .openFailed => .error (GitError.from_str "Could not open credentials file")
            | .readFailed => .error (GitError.from_str "Could not read credentials file")
          else
            .ok ssh.private_key
        match private_key with
        | .error e => .err e
        | .ok key =>
            match username with
            | some u => .ok (.ssh_key_from_memory u ssh.public_key key ssh.passphrase)
            | none => .panicked
    | _ => credentials_callback_step3 creds username allowed
  else
    credentials_callback_step3 creds username allowed

/-- The credential callback of `Repo::update` (repo.rs lines 95-141).
`creds` is the configured credential, `fs` the filesystem oracle for the
key-file read, `username` the proposed username of the challenge, `allowed`
the mechanism mask offered by the remote.  First block (lines 100-112): if
the mask permits username-only negotiation, return the configured username
when one exists (SSH or Password variant), fail with
"Authentication is required" when no credential is configured at all, and
fall through to the later blocks otherwise. -/
def credentials_callback (creds : Option Credentials) (fs : String → FsRead)
    (username : Option String) (allowed : CredentialType) : CbOutcome :=
  if allowed.username then
    match creds with
    | some (.SSH ssh) =>
        match ssh.username with
        | some u => .ok (.username u)
        | none => credentials_callback_step2 creds fs username allowed
    | some (.Password password) =>
        match password.username with
        | some u => .ok (.username u)
        | none => credentials_callback_step2 creds fs username allowed
    | none => .err (GitError.from_str "Authentication is required")
  else
    credentials_callback_step2 creds fs username allowed

/-- A git object, identified by its object id (`git2::Object::id`). -/
structure GitObject where
  id : Nat
deriving DecidableEq, Repr

/-- One credential challenge raised by the remote during a fetch: the target
URL, the proposed username, and the mask of allowed mechanisms. -/
structure Challenge where
  url : String
  username : Option String
  allowed : CredentialType

/-- Oracle for the external libgit2 and filesystem operations performed by
one `Repo::update` call, in the order the call makes them. -/
structure World where
  path_exists : Bool
  open_result : Except GitError Unit
  create_dir_result : Except IoError Unit
  init_result : Except GitError Unit
  remote_anonymous_result : Except GitError Unit
  challenges : List Challenge
  fetch_result : Except GitError Unit
  revparse_head : Except GitError GitObject
  revparse_staging : Except GitError GitObject
  reset_result : Except GitError Unit

/-- Mutable synchronization state of a repository (`RepoState` in repo.rs). -/
structure RepoState where
  last_checked : Option Nat
  last_changed : Option Nat
deriving DecidableEq, Repr

/-- The error type of `Repo::update`: a git-layer error or a local
I/O-layer error. -/
inductive UpdateError where
  | Git : GitError → UpdateError
  | Io : IoError → UpdateError
deriving DecidableEq, Repr

/-- Outcome of one `Repo::update` call: `Ok(changed)`, a typed error, or a
panic propagated from the credential callback. -/
inductive UpdateResult where
  | ok : Bool → UpdateResult
  | err : UpdateError → UpdateResult
  | panicked : UpdateResult
deriving DecidableEq, Repr

/-- Outcome of the fetch (repo.rs lines 144-148): success, a git error
(either raised by the credential callback or by the transfer itself), or a
panic from the callback. -/
inductive FetchOutcome where
  | fetched : FetchOutcome
  | failed : GitError → FetchOutcome
  | panicked : FetchOutcome
deriving DecidableEq, Repr

/-- Runs the fetch: each challenge is answered by the credential callback;
a callback error aborts the fetch with that error, a callback panic aborts
the call; once every challenge is answered the transfer outcome decides. -/
def run_fetch (creds : Option Credentials) (fs : String → FsRead)
    (challenges : List Challenge) (net : Except GitError Unit) : FetchOutcome :=
  match challenges with
  | [] =>
      match net with
      | .ok _ => .fetched
      | .error e => .failed e
  | c :: rest =>
      match credentials_callback creds fs c.username c.allowed with
      | .ok _ => run_fetch creds fs rest net
      | .err e => .failed e
      | .panicked => .panicked

/-- `Repo::update` (repo.rs lines 71-172).  Records the checked timestamp
first; opens or initializes the repository; creates the anonymous remote;
fetches with the credential callback; resolves `HEAD` (absence tolerated via
`.ok()`) and the staging reference `refs/pullomatic` (absence fatal);
returns `Ok(false)` when the two object ids coincide; otherwise hard-resets
and records the changed timestamp before returning `Ok(true)`. -/
def update (config : Config) (w : World) (fs : String → FsRead) (now : Nat)
    (st : RepoState) : UpdateResult × RepoState :=
  let st := { st with last_checked := some now }
  match (if w.path_exists then
           match w.open_result with
           | .ok _ => Except.ok ()
           | .error e => Except.error (UpdateError.Git e)
         else
           match w.create_dir_result with
           | .error e => Except.error (UpdateError.Io e)
           | .ok _ =>
               match w.init_result with
               | .ok _ => Except.ok ()
               | .error e => Except.error (UpdateError.Git e)) with
  | .error e => (.err e, st)
  | .ok _ =>
      match w.remote_anonymous_result with
      | .error e => (.err (UpdateError.Git e), st)
      | .ok _ =>
          match run_fetch config.credentials fs w.challenges w.fetch_result with
          | .panicked => (.panicked, st)
          | .failed e => (.err (UpdateError.Git e), st)
          | .fetched =>
              let latest_obj := w.revparse_head.toOption
              match w.revparse_staging with
              | .error e => (.err (UpdateError.Git e), st)
              | .ok remote_obj =>
                  if (match latest_obj with
                      | some latest => latest.id == remote_obj.id
                      | none => false) then
                    (.ok false, st)
                  else
                    match w.reset_result with
                    | .error e => (.err (UpdateError.Git e), st)
                    | .ok _ => (.ok true, { st with last_changed := some now })

/-- Modelled from the spec: ticker.rs line 20 calls `repo.last_updated()`,
which is not defined under src/ (repo.rs exposes `last_checked`, line 178);
per the spec the due policy reads the repository's last check time, so this
accessor returns the state's `last_checked`. -/
def Repo.last_updated (st : RepoState) : Option Nat := st.last_checked

/-- Due condition of the ticker loop (ticker.rs line 20):
`repo.last_updated().map_or(true, |t| t + interval < Instant::now())`. -/
def ticker_due (last_updated : Option Nat) (interval : Nat) (now : Nat) : Bool :=
  match last_updated with
  | none => true
  | some t => decide (t + interval < now)

/-- One iteration of the ticker loop body (ticker.rs lines 19-22): the
repository handle is sent to the producer exactly when the due condition
holds. -/
def ticker_iteration (st : RepoState) (interval : Nat) (now : Nat) : Bool :=
  ticker_due (Repo.last_updated st) interval now

/-- Handle of a spawned ticker thread, carrying the interval its loop uses. -/
structure TickerThread where
  interval : Nat
deriving DecidableEq, Repr

/-- The ticker entry point (ticker.rs lines 7-31): spawns a loop thread when
the configuration declares a polling interval, returns `None` otherwise. -/
def ticker (config : Config) : Option TickerThread :=
  match config.interval with
  | some interval => some ⟨interval⟩
  | none => none

/-- The username carried by a configured credential, for either variant. -/
def cred_username : Credentials → Option String
  | .SSH ssh => ssh.username
  | .Password password => password.username

/-- A configured credential matches the allowed mask when the mask permits
username-only negotiation and the credential carries a username, or the mask
permits the mechanism of the credential's variant (in-memory SSH key for SSH,
plaintext user/password for Password). -/
def cred_matches_mask (c : Credentials) (allowed : CredentialType) : Bool :=
  (allowed.username && (cred_username c).isSome) ||
  (match c with
   | .SSH _ => allowed.ssh_memory
   | .Password _ => allowed.user_pass_plaintext)

/-- All stages of the pre-fetch part of `update` succeed: opening (or
creating and initializing) the repository and creating the anonymous
remote. -/
def pre_fetch_ok (w : World) : Prop :=
  (w.path_exists = true → w.open_result = Except.ok ()) ∧
  (w.path_exists = false → w.create_dir_result = Except.ok () ∧ w.init_result = Except.ok ()) ∧
  w.remote_anonymous_result = Except.ok ()

/-- C1 counterexample: with no configured credential and a mask containing
none of the mechanisms (in particular not USERNAME), the callback fails with
"Unsupported authentication", not with "Authentication is required" — so the
choice between the two errors does depend on the mask. -/
theorem c1_counterexample :
    credentials_callback none (fun _ => FsRead.openFailed) none ⟨false, false, false⟩
      = .err (GitError.from_str "Unsupported authentication") ∧
    credentials_callback none (fun _ => FsRead.openFailed) none ⟨false, false, false⟩
      ≠ .err (GitError.from_str "Authentication is required") := by
  decide

/-- C1 (amended): with no configured credential the callback fails with
"Authentication is required" exactly when the mask permits username-only
negotiation, and with "Unsupported authentication" otherwise; with a
configured credential matching none of the allowed mechanisms it fails with
"Unsupported authentication". -/
theorem c1_error_selection (creds : Option Credentials) (fs : String → FsRead)
    (username : Option String) (allowed : CredentialType) :
    (creds = none → allowed.username = true →
      credentials_callback creds fs username allowed
        = .err (GitError.from_str "Authentication is required")) ∧
    (creds = none → allowed.username = false →
      credentials_callback creds fs username allowed
        = .err (GitError.from_str "Unsupported authentication")) ∧
    (∀ c, creds = some c → cred_matches_mask c allowed = false →
      credentials_callback creds fs username allowed
        = .err (GitError.from_str "Unsupported authentication")) := by
  refine ⟨?_, ?_, ?_⟩
  · rintro rfl h
    simp [credentials_callback, h]
  · rintro rfl h
    cases hm2 : allowed.ssh_memory <;> cases hp : allowed.user_pass_plaintext <;>
      simp [credentials_callback, credentials_callback_step2,
            credentials_callback_step3, h, hm2, hp]
  · rintro c rfl hm
    cases c with
    | SSH ssh =>
        cases hu : allowed.username <;> cases hm2 : allowed.ssh_memory <;>
          cases hp : allowed.user_pass_plaintext <;>
            simp_all [cred_matches_mask, cred_username, credentials_callback,
                      credentials_callback_step2, credentials_callback_step3]
    | Password password =>
        cases hu : allowed.username <;> cases hm2 : allowed.ssh_memory <;>
          cases hp : allowed.user_pass_plaintext <;>
            simp_all [cred_matches_mask, cred_username, credentials_callback,
                      credentials_callback_step2, credentials_callback_step3]

/-- C1 witness for the amended theorem, at concrete inputs. -/
theorem c1_error_selection_witness :
    credentials_callback none (fun _ => FsRead.openFailed) none ⟨true, false, false⟩
      = .err (GitError.from_str "Authentication is required") ∧
    credentials_callback none (fun _ => FsRead.openFailed) none ⟨false, true, true⟩
      = .err (GitError.from_str "Unsupported authentication") ∧
    credentials_callback (some (.Password ⟨none, "hunter2"⟩))
        (fun _ => FsRead.openFailed) none ⟨true, true, false⟩
      = .err (GitError.from_str "Unsupported authentication") := by
  refine ⟨?_, ?_, ?_⟩
  · exact (c1_error_selection none (fun _ => FsRead.openFailed) none
      ⟨true, false, false⟩).1 rfl rfl
  · exact (c1_error_selection none (fun _ => FsRead.openFailed) none
      ⟨false, true, true⟩).2.1 rfl rfl
  · exact (c1_error_selection (some (.Password ⟨none, "hunter2"⟩))
      (fun _ => FsRead.openFailed) none ⟨true, true, false⟩).2.2
      (.Password ⟨none, "hunter2"⟩) rfl (by decide)

/-- C3 counterexample: the plaintext branch returns the challenge's proposed
username ("bob"), not the configured credential's username ("alice"). -/
theorem c3_counterexample :
    credentials_callback (some (.Password ⟨some "alice", "hunter2"⟩))
        (fun _ => FsRead.openFailed) (some "bob") ⟨false, false, true⟩
      = .ok (.userpass_plaintext "bob" "hunter2") ∧
    credentials_callback (some (.Password ⟨some "alice", "hunter2"⟩))
        (fun _ => FsRead.openFailed) (some "bob") ⟨false, false, true⟩
      ≠ .ok (.userpass_plaintext "alice" "hunter2") := by
  decide

/-- C3 (amended): when the mask permits plaintext user/password, a Password
credential is configured, no earlier mechanism applied, and the challenge
proposes a username, the callback returns a plaintext credential carrying
the proposed username and the configured password. -/
theorem c3_plaintext_credential (password : PasswordCredentials)
    (fs : String → FsRead) (u : String) (allowed : CredentialType)
    (hpt : allowed.user_pass_plaintext = true)
    (hskip : allowed.username = true → password.username = none) :
    credentials_callback (some (.Password password)) fs (some u) allowed
      = .ok (.userpass_plaintext u password.password) := by
  cases hu : allowed.username with
  | false =>
      cases hm : allowed.ssh_memory <;>
        simp [credentials_callback, hu, credentials_callback_step2, hm,
              credentials_callback_step3, hpt]
  | true =>
      cases hm : allowed.ssh_memory <;>
        simp [credentials_callback, hu, hskip hu, credentials_callback_step2, hm,
              credentials_callback_step3, hpt]

/-- C3 witness for the amended theorem, at concrete inputs. -/
theorem c3_plaintext_credential_witness :
    credentials_callback (some (.Password ⟨none, "hunter2"⟩))
        (fun _ => FsRead.openFailed) (some "bob") ⟨false, false, true⟩
      = .ok (.userpass_plaintext "bob" "hunter2") :=
  c3_plaintext_credential ⟨none, "hunter2"⟩ (fun _ => FsRead.openFailed) "bob"
    ⟨false, false, true⟩ rfl (by intro h; cases h)

/-- C7: with a configured Password credential carrying a username, a
challenge whose mask permits both username-only and plaintext mechanisms is
answered with the username-only credential; a subsequent challenge whose
mask permits plaintext but not username-only (and which, the username having
been negotiated, proposes a username) is answered with the plaintext
password credential. -/
theorem c7_username_precedence (password : PasswordCredentials) (u u2 : String)
    (fs : String → FsRead) (proposed : Option String)
    (allowed1 allowed2 : CredentialType)
    (hu : password.username = some u)
    (h1a : allowed1.username = true) (h1b : allowed1.user_pass_plaintext = true)
    (h2a : allowed2.username = false) (h2b : allowed2.user_pass_plaintext = true) :
    credentials_callback (some (.Password password)) fs proposed allowed1
      = .ok (.username u) ∧
    credentials_callback (some (.Password password)) fs (some u2) allowed2
      = .ok (.userpass_plaintext u2 password.password) := by
  constructor
  · simp [credentials_callback, h1a, hu]
  · cases hm : allowed2.ssh_memory <;>
      simp [credentials_callback, h2a, credentials_callback_step2, hm,
            credentials_callback_step3, h2b]

/-- C7 witness at concrete inputs. -/
theorem c7_username_precedence_witness :
    credentials_callback (some (.Password ⟨some "alice", "hunter2"⟩))
        (fun _ => FsRead.openFailed) none ⟨true, false, true⟩
      = .ok (.username "alice") ∧
    credentials_callback (some (.Password ⟨some "alice", "hunter2"⟩))
        (fun _ => FsRead.openFailed) (some "alice") ⟨false, false, true⟩
      = .ok (.userpass_plaintext "alice" "hunter2") :=
  c7_username_precedence ⟨some "alice", "hunter2"⟩ "alice" "alice"
    (fun _ => FsRead.openFailed) none ⟨true, false, true⟩ ⟨false, false, true⟩
    rfl rfl rfl rfl rfl

/-- C10: on a challenge proposing no username, the callback panics (the
`unwrap()` on the proposed username) both in the in-memory SSH branch and in
the plaintext branch, instead of returning an authentication error. -/
theorem c10_panic_on_absent_username :
    credentials_callback (some (.SSH ⟨none, "KEYMATERIAL", false, none, none⟩))
        (fun _ => FsRead.ok "") none ⟨false, true, false⟩ = .panicked ∧
    credentials_callback (some (.Password ⟨none, "hunter2"⟩))
        (fun _ => FsRead.ok "") none ⟨false, false, true⟩ = .panicked := by
  decide

/-- C2: the ticker loop body enqueues the repository exactly when it is due:
its last check time is absent, or last check time plus the interval has
already elapsed; concretely, a last check at `now - I - ε` is due, one at
`now - I + ε` is not, and an absent last check is always due. -/
theorem c2_due_policy (I ε now : Nat) (ch : Option Nat)
    (hε : 0 < ε) (hIε : I + ε ≤ now) :
    (∀ st : RepoState, ticker_iteration st I now = true ↔
       (st.last_checked = none ∨ ∃ t, st.last_checked = some t ∧ t + I < now)) ∧
    ticker_iteration ⟨some (now - I - ε), ch⟩ I now = true ∧
    ticker_iteration ⟨some (now - I + ε), ch⟩ I now = false ∧
    ticker_iteration ⟨none, ch⟩ I now = true := by
  refine ⟨?_, ?_, ?_, rfl⟩
  · intro st
    cases h : st.last_checked <;>
      simp [ticker_iteration, ticker_due, Repo.last_updated, h]
  · simp only [ticker_iteration, ticker_due, Repo.last_updated, decide_eq_true_eq]
    omega
  · simp only [ticker_iteration, ticker_due, Repo.last_updated, decide_eq_false_iff_not]
    omega

/-- C2 witness at concrete inputs: interval 5, ε = 1, now = 10. -/
theorem c2_due_policy_witness :
    (0 < 1 ∧ 5 + 1 ≤ 10) ∧
    ((∀ st : RepoState, ticker_iteration st 5 10 = true ↔
       (st.last_checked = none ∨ ∃ t, st.last_checked = some t ∧ t + 5 < 10)) ∧
     ticker_iteration ⟨some (10 - 5 - 1), none⟩ 5 10 = true ∧
     ticker_iteration ⟨some (10 - 5 + 1), none⟩ 5 10 = false ∧
     ticker_iteration ⟨none, none⟩ 5 10 = true) :=
  ⟨by decide, c2_due_policy 5 1 10 none (by decide) (by decide)⟩

/-- C9: the ticker entry point returns `None` exactly when no polling
interval is configured, and a thread handle running the loop at the
configured interval otherwise. -/
theorem c9_ticker_spawns_iff_interval (config : Config) :
    (config.interval = none → ticker config = none) ∧
    (∀ i, config.interval = some i → ticker config = some ⟨i⟩) := by
  constructor
  · intro h
    simp [ticker, h]
  · intro i h
    simp [ticker, h]

/-- C9 witness at concrete configurations. -/
theorem c9_ticker_spawns_iff_interval_witness :
    ticker ⟨"/tmp/a", "https://example", "refs/heads/main", none, none⟩ = none ∧
    ticker ⟨"/tmp/a", "https://example", "refs/heads/main", some 60, none⟩
      = some ⟨60⟩ :=
  ⟨(c9_ticker_spawns_iff_interval
      ⟨"/tmp/a", "https://example", "refs/heads/main", none, none⟩).1 rfl,
   (c9_ticker_spawns_iff_interval
      ⟨"/tmp/a", "https://example", "refs/heads/main", some 60, none⟩).2 60 rfl⟩

/-- C4: when the fetch succeeds, the local HEAD resolves to an object whose
id equals the staging object's id, `update` returns `Ok(false)` and no reset
is performed: the outcome is the same for every possible reset result. -/
theorem c4_no_change_skips_reset (config : Config) (w : World)
    (fs : String → FsRead) (now : Nat) (st : RepoState) (head staging : GitObject)
    (hpre : pre_fetch_ok w)
    (hfetch : run_fetch config.credentials fs w.challenges w.fetch_result = .fetched)
    (hhead : w.revparse_head = Except.ok head)
    (hstag : w.revparse_staging = Except.ok staging)
    (hid : head.id = staging.id) :
    ∀ r : Except GitError Unit,
      update config { w with reset_result := r } fs now st
        = (.ok false, { st with last_checked := some now }) := by
  intro r
  obtain ⟨h1, h2, h3⟩ := hpre
  unfold update
  cases hpe : w.path_exists with
  | true =>
      simp [hpe, h1 hpe, h3, hfetch, hhead, hstag, hid, Except.toOption]
  | false =>
      obtain ⟨hc, hi⟩ := h2 hpe
      simp [hpe, hc, hi, h3, hfetch, hhead, hstag, hid, Except.toOption]

/-- C4 witness at a concrete world whose reset operation would fail if it
were invoked. -/
theorem c4_no_change_skips_reset_witness :
    update ⟨"/tmp/a", "https://example", "refs/heads/main", none, none⟩
        ⟨true, Except.ok (), Except.ok (), Except.ok (), Except.ok (), [],
         Except.ok (), Except.ok ⟨7⟩, Except.ok ⟨7⟩,
         Except.error (GitError.from_str "reset exploded")⟩
        (fun _ => FsRead.openFailed) 5 ⟨none, none⟩
      = (.ok false, ⟨some 5, none⟩) :=
  c4_no_change_skips_reset
    ⟨"/tmp/a", "https://example", "refs/heads/main", none, none⟩
    ⟨true, Except.ok (), Except.ok (), Except.ok (), Except.ok (), [],
     Except.ok (), Except.ok ⟨7⟩, Except.ok ⟨7⟩, Except.ok ()⟩
    (fun _ => FsRead.openFailed) 5 ⟨none, none⟩ ⟨7⟩ ⟨7⟩
    ⟨fun _ => rfl, fun h => absurd h (by decide), rfl⟩ rfl rfl rfl rfl
    (Except.error (GitError.from_str "reset exploded"))

/-- C5: every `update` call sets the checked timestamp to the call's start
time, on every outcome (success, error, or propagated panic); the changed
timestamp is set to that same start time exactly when the call returns
`Ok(true)`, and retains its prior value on every other outcome. -/
theorem c5_timestamp_discipline (config : Config) (w : World)
    (fs : String → FsRead) (now : Nat) (st : RepoState) :
    (update config w fs now st).2.last_checked = some now ∧
    ((update config w fs now st).1 = .ok true →
      (update config w fs now st).2.last_changed = some now) ∧
    ((update config w fs now st).1 ≠ .ok true →
      (update config w fs now st).2.last_changed = st.last_changed) := by
  unfold update
  dsimp only
  repeat' split
  all_goals simp_all

/-- C5 witness: a concrete up-to-date run returns `Ok(false)`, sets checked
to the start time and leaves changed at its prior value. -/
theorem c5_timestamp_discipline_witness :
    (update ⟨"/tmp/a", "https://example", "refs/heads/main", none, none⟩
        ⟨true, Except.ok (), Except.ok (), Except.ok (), Except.ok (), [],
         Except.ok (), Except.ok ⟨7⟩, Except.ok ⟨7⟩, Except.ok ()⟩
        (fun _ => FsRead.openFailed) 5 ⟨some 1, some 1⟩).2.last_checked = some 5 ∧
    (update ⟨"/tmp/a", "https://example", "refs/heads/main", none, none⟩
        ⟨true, Except.ok (), Except.ok (), Except.ok (), Except.ok (), [],
         Except.ok (), Except.ok ⟨7⟩, Except.ok ⟨7⟩, Except.ok ()⟩
        (fun _ => FsRead.openFailed) 5 ⟨some 1, some 1⟩).2.last_changed = some 1 :=
  ⟨(c5_timestamp_discipline ⟨"/tmp/a", "https://example", "refs/heads/main", none, none⟩
      ⟨true, Except.ok (), Except.ok (), Except.ok (), Except.ok (), [],
       Except.ok (), Except.ok ⟨7⟩, Except.ok ⟨7⟩, Except.ok ()⟩
      (fun _ => FsRead.openFailed) 5 ⟨some 1, some 1⟩).1,
   (c5_timestamp_discipline ⟨"/tmp/a", "https://example", "refs/heads/main", none, none⟩
      ⟨true, Except.ok (), Except.ok (), Except.ok (), Except.ok (), [],
       Except.ok (), Except.ok ⟨7⟩, Except.ok ⟨7⟩, Except.ok ()⟩
      (fun _ => FsRead.openFailed) 5 ⟨some 1, some 1⟩).2.2 (by decide)⟩

/-- C6: once the fetch has succeeded, failure to resolve the local HEAD is
tolerated — the call proceeds to the reset and returns `Ok(true)` — whereas
failure to resolve the staging reference makes the call return that error. -/
theorem c6_head_tolerated_staging_fatal (config : Config) (w : World)
    (fs : String → FsRead) (now : Nat) (st : RepoState)
    (hpre : pre_fetch_ok w)
    (hfetch : run_fetch config.credentials fs w.challenges w.fetch_result = .fetched) :
    (∀ e staging, w.revparse_head = Except.error e →
       w.revparse_staging = Except.ok staging →
       w.reset_result = Except.ok () →
       update config w fs now st
         = (.ok true, { st with last_checked := some now, last_changed := some now })) ∧
    (∀ e, w.revparse_staging = Except.error e →
       update config w fs now st
         = (.err (UpdateError.Git e), { st with last_checked := some now })) := by
  obtain ⟨h1, h2, h3⟩ := hpre
  constructor
  · intro e staging hhead hstag hreset
    unfold update
    cases hpe : w.path_exists with
    | true =>
        simp [hpe, h1 hpe, h3, hfetch, hhead, hstag, hreset, Except.toOption]
    | false =>
        obtain ⟨hc, hi⟩ := h2 hpe
        simp [hpe, hc, hi, h3, hfetch, hhead, hstag, hreset, Except.toOption]
  · intro e hstag
    unfold update
    cases hpe : w.path_exists with
    | true =>
        simp [hpe, h1 hpe, h3, hfetch, hstag]
    | false =>
        obtain ⟨hc, hi⟩ := h2 hpe
        simp [hpe, hc, hi, h3, hfetch, hstag]

/-- C6 witness: a concrete first-ever sync (HEAD unresolvable) succeeds with
`Ok(true)`, and a concrete run whose staging reference does not resolve
fails with that git error. -/
theorem c6_head_tolerated_staging_fatal_witness :
    update ⟨"/tmp/a", "https://example", "refs/heads/main", none, none⟩
        ⟨true, Except.ok (), Except.ok (), Except.ok (), Except.ok (), [],
         Except.ok (), Except.error (GitError.from_str "HEAD not found"),
         Except.ok ⟨7⟩, Except.ok ()⟩
        (fun _ => FsRead.openFailed) 5 ⟨none, none⟩
      = (.ok true, ⟨some 5, some 5⟩) ∧
    update ⟨"/tmp/a", "https://example", "refs/heads/main", none, none⟩
        ⟨true, Except.ok (), Except.ok (), Except.ok (), Except.ok (), [],
         Except.ok (), Except.ok ⟨7⟩,
         Except.error (GitError.from_str "staging not found"), Except.ok ()⟩
        (fun _ => FsRead.openFailed) 5 ⟨none, none⟩
      = (.err (UpdateError.Git (GitError.from_str "staging not found")), ⟨some 5, none⟩) :=
  ⟨(c6_head_tolerated_staging_fatal
      ⟨"/tmp/a", "https://example", "refs/heads/main", none, none⟩
      ⟨true, Except.ok (), Except.ok (), Except.ok (), Except.ok (), [],
       Except.ok (), Except.error (GitError.from_str "HEAD not found"),
       Except.ok ⟨7⟩, Except.ok ()⟩
      (fun _ => FsRead.openFailed) 5 ⟨none, none⟩
      ⟨fun _ => rfl, fun h => absurd h (by decide), rfl⟩ rfl).1
      (GitError.from_str "HEAD not found") ⟨7⟩ rfl rfl rfl,
   (c6_head_tolerated_staging_fatal
      ⟨"/tmp/a", "https://example", "refs/heads/main", none, none⟩
      ⟨true, Except.ok (), Except.ok (), Except.ok (), Except.ok (), [],
       Except.ok (), Except.ok ⟨7⟩,
       Except.error (GitError.from_str "staging not found"), Except.ok ()⟩
      (fun _ => FsRead.openFailed) 5 ⟨none, none⟩
      ⟨fun _ => rfl, fun h => absurd h (by decide), rfl⟩ rfl).2
      (GitError.from_str "staging not found") rfl⟩

/-- C8: when the configured SSH credential is flagged as a key-file path and
the mask permits in-memory SSH keys, a failure to open or to read that file
makes the callback return a git error with the corresponding fixed message,
and the surrounding `update` call fails with the Git variant of
`UpdateError` (never the Io variant). -/
theorem c8_key_file_failure_is_git_error (ssh : SshCredentials)
    (fs : String → FsRead) (proposed : Option String) (allowed : CredentialType)
    (config : Config) (w : World) (now : Nat) (st : RepoState) (ch : Challenge)
    (hkp : ssh.private_key_path = true)
    (hmem : allowed.ssh_memory = true)
    (hskip : allowed.username = true → ssh.username = none)
    (hcred : config.credentials = some (.SSH ssh))
    (hch : w.challenges = [ch])
    (hcu : ch.username = proposed) (hca : ch.allowed = allowed)
    (hpre : pre_fetch_ok w) :
    (fs ssh.private_key = .openFailed →
      credentials_callback (some (.SSH ssh)) fs proposed allowed
        = .err (GitError.from_str "Could not open credentials file") ∧
      update config w fs now st
        = (.err (UpdateError.Git (GitError.from_str "Could not open credentials file")),
           { st with last_checked := some now })) ∧
    (fs ssh.private_key = .readFailed →
      credentials_callback (some (.SSH ssh)) fs proposed allowed
        = .err (GitError.from_str "Could not read credentials file") ∧
      update config w fs now st
        = (.err (UpdateError.Git (GitError.from_str "Could not read credentials file")),
           { st with last_checked := some now })) := by
  obtain ⟨h1, h2, h3⟩ := hpre
  have main : ∀ msg : String,
      credentials_callback (some (.SSH ssh)) fs proposed allowed
        = .err (GitError.from_str msg) →
      update config w fs now st
        = (.err (UpdateError.Git (GitError.from_str msg)),
           { st with last_checked := some now }) := by
    intro msg hcb
    have hrf : run_fetch config.credentials fs w.challenges w.fetch_result
        = .failed (GitError.from_str msg) := by
      rw [hch]
      simp [run_fetch, hcred, hcu, hca, hcb]
    unfold update
    cases hpe : w.path_exists with
    | true =>
        simp [hpe, h1 hpe, h3, hrf]
    | false =>
        obtain ⟨hc, hi⟩ := h2 hpe
        simp [hpe, hc, hi, h3, hrf]
  constructor
  · intro hfs
    have hcb : credentials_callback (some (.SSH ssh)) fs proposed allowed
        = .err (GitError.from_str "Could not open credentials file") := by
      cases hu : allowed.username with
      | false =>
          simp [credentials_callback, hu, credentials_callback_step2, hmem, hkp, hfs]
      | true =>
          simp [credentials_callback, hu, hskip hu, credentials_callback_step2,
                hmem, hkp, hfs]
    exact ⟨hcb, main _ hcb⟩
  · intro hfs
    have hcb : credentials_callback (some (.SSH ssh)) fs proposed allowed
        = .err (GitError.from_str "Could not read credentials file") := by
      cases hu : allowed.username with
      | false =>
          simp [credentials_callback, hu, credentials_callback_step2, hmem, hkp, hfs]
      | true =>
          simp [credentials_callback, hu, hskip hu, credentials_callback_step2,
                hmem, hkp, hfs]
    exact ⟨hcb, main _ hcb⟩

/-- C8 witness at concrete inputs, for both the open failure and the read
failure. -/
theorem c8_key_file_failure_is_git_error_witness :
    (credentials_callback (some (.SSH ⟨none, "/key", true, none, none⟩))
        (fun _ => FsRead.openFailed) none ⟨false, true, false⟩
      = .err (GitError.from_str "Could not open credentials file") ∧
     update ⟨"/tmp/a", "https://example", "refs/heads/main", none,
             some (.SSH ⟨none, "/key", true, none, none⟩)⟩
        ⟨true, Except.ok (), Except.ok (), Except.ok (), Except.ok (),
         [⟨"https://example", none, ⟨false, true, false⟩⟩],
         Except.ok (), Except.ok ⟨7⟩, Except.ok ⟨7⟩, Except.ok ()⟩
        (fun _ => FsRead.openFailed) 5 ⟨none, none⟩
      = (.err (UpdateError.Git (GitError.from_str "Could not open credentials file")),
         ⟨some 5, none⟩)) ∧
    (credentials_callback (some (.SSH ⟨none, "/key", true, none, none⟩))
        (fun _ => FsRead.readFailed) none ⟨false, true, false⟩
      = .err (GitError.from_str "Could not read credentials file") ∧
     update ⟨"/tmp/a", "https://example", "refs/heads/main", none,
             some (.SSH ⟨none, "/key", true, none, none⟩)⟩
        ⟨true, Except.ok (), Except.ok (), Except.ok (), Except.ok (),
         [⟨"https://example", none, ⟨false, true, false⟩⟩],
         Except.ok (), Except.ok ⟨7⟩, Except.ok ⟨7⟩, Except.ok ()⟩
        (fun _ => FsRead.readFailed) 5 ⟨none, none⟩
      = (.err (UpdateError.Git (GitError.from_str "Could not read credentials file")),
         ⟨some 5, none⟩)) :=
  ⟨(c8_key_file_failure_is_git_error ⟨none, "/key", true, none, none⟩
      (fun _ => FsRead.openFailed) none ⟨false, true, false⟩
      ⟨"/tmp/a", "https://example", "refs/heads/main", none,
       some (.SSH ⟨none, "/key", true, none, none⟩)⟩
      ⟨true, Except.ok (), Except.ok (), Except.ok (), Except.ok (),
       [⟨"https://example", none, ⟨false, true, false⟩⟩],
       Except.ok (), Except.ok ⟨7⟩, Except.ok ⟨7⟩, Except.ok ()⟩
      5 ⟨none, none⟩ ⟨"https://example", none, ⟨false, true, false⟩⟩
      rfl rfl (fun _ => rfl) rfl rfl rfl rfl
      ⟨fun _ => rfl, fun h => absurd h (by decide), rfl⟩).1 rfl,
   (c8_key_file_failure_is_git_error ⟨none, "/key", true, none, none⟩
      (fun _ => FsRead.readFailed) none ⟨false, true, false⟩
      ⟨"/tmp/a", "https://example", "refs/heads/main", none,
       some (.SSH ⟨none, "/key", true, none, none⟩)⟩
      ⟨true, Except.ok (), Except.ok (), Except.ok (), Except.ok (),
       [⟨"https://example", none, ⟨false, true, false⟩⟩],
       Except.ok (), Except.ok ⟨7⟩, Except.ok ⟨7⟩, Except.ok ()⟩
      5 ⟨none, none⟩ ⟨"https://example", none, ⟨false, true, false⟩⟩
      rfl rfl (fun _ => rfl) rfl rfl rfl rfl
      ⟨fun _ => rfl, fun h => absurd h (by decide), rfl⟩).2 rfl⟩

end Pullomatic
